import Mathlib

/-!
Verification of the spending aggregation and alert-deduplication engine of the
llm_tracking repository against its specification.

The repository contains two parallel webhook-processing paths:

* the `SpendingMonitor` path (`spending_monitor.py` + `database.py` + `alerts.py`),
  modelled below by `MonitorState`, `addRequest`, `updateHourlyAggregate`,
  `wasAlertSent`, `recordAlertSent`, `handleLimitExceeded`, `processWebhookData`;
* the `SpendingTracker` path (`main.py`), modelled by `TrackerState`,
  `logSpending`, `checkAndSendAlert`, `webhookHandler`.

Money (SQLite REAL) is modelled by `ℚ`.  Wall-clock timestamps are natural
numbers (minutes); `hourStartOf t = t / 60 * 60` models
`datetime.replace(minute=0, second=0, microsecond=0)`, and a row is in the
hour window iff `hourStart ≤ t < hourStart + 60`, matching the half-open
SQL range `timestamp >= hour_start AND timestamp < hour_start + 1h`.
`datetime.now()` is ambient state in the source, so each processing function
takes the current time `now` as an explicit argument.  Outbound notification
channels (Slack / email) are external collaborators: they are passed in as a
`notifier` function, and every invocation of them is recorded in a
`dispatched` trace so that "the alert fired" is observable.
-/

namespace LLMTracking

/-- Inbound webhook event: the fields of the JSON payload that the engine
reads (`request_id`, `metadata.cost`, `model`, `user_id`,
`metadata.totalTokens`).  A missing `metadata.cost` corresponds to
`cost = 0` via `metadata.get('cost', 0.0)`. -/
structure Event where
  requestId : Option String
  cost : ℚ
  model : Option String
  userId : Option String
  totalTokens : Option Nat
deriving DecidableEq

/-- Model of `get_current_hour` / `datetime.replace(minute=0, ...)`: the hour
floor of a timestamp measured in minutes. -/
def hourStartOf (now : Nat) : Nat := now / 60 * 60

/-- Row of the `api_requests` table of `database.py` (`request_id TEXT UNIQUE
NOT NULL`, `timestamp`, `cost_usd`, audit columns). -/
structure RequestRow where
  requestId : String
  timestamp : Nat
  costUsd : ℚ
  model : Option String
  userId : Option String
  tokensTotal : Option Nat
deriving DecidableEq

/-- Row of the `hourly_spending` table of `database.py`
(`UNIQUE(hour_start)`). -/
structure HourlyRow where
  hourStart : Nat
  totalCostUsd : ℚ
  requestCount : Nat
deriving DecidableEq

/-- Row of the `alerts_sent` table of `database.py`.  Note that the schema has
NO uniqueness constraint on `(hour_start, alert_type)`. -/
structure AlertRow where
  hourStart : Nat
  alertType : String
  totalSpend : ℚ
  limitExceeded : ℚ
deriving DecidableEq

/-- Alert payload handed to `AlertSystem.send_alerts` by
`handle_limit_exceeded` (`spending_data` dict). -/
structure AlertPayload where
  hourStart : Nat
  totalSpend : ℚ
  limit : ℚ
  overage : ℚ
  requestCount : Nat
deriving DecidableEq

/-- State of the `SpendingMonitor` path: the three tables of `database.py`
plus the trace of notifier invocations (each with the `(slack, email)`
success results returned by `AlertSystem.send_alerts`). -/
structure MonitorState where
  apiRequests : List RequestRow
  hourlySpending : List HourlyRow
  alertsSent : List AlertRow
  dispatched : List (AlertPayload × (Bool × Bool))
deriving DecidableEq

/-- Freshly initialized database (`init_database` creates empty tables). -/
def MonitorState.empty : MonitorState := ⟨[], [], [], []⟩

/-- Model of `SpendingDatabase.add_request`: `INSERT OR IGNORE` into
`api_requests`, keyed by `request_id TEXT UNIQUE NOT NULL`.  A `None`
request id violates `NOT NULL`, so `OR IGNORE` silently skips the row; a
duplicate key is likewise skipped.  Returns `cursor.rowcount > 0` together
with the new state. -/
def addRequest (s : MonitorState) (e : Event) (ts : Nat) : Bool × MonitorState :=
  match e.requestId with
  | none => (false, s)
  | some k =>
    if s.apiRequests.any (fun r => r.requestId == k) then (false, s)
    else (true, { s with apiRequests :=
      s.apiRequests ++ [⟨k, ts, e.cost, e.model, e.userId, e.totalTokens⟩] })

/-- Rows of `api_requests` whose timestamp lies in the half-open hour window
`[hour_start, hour_start + 1h)`, as selected by the SQL range queries. -/
def rowsInHour (s : MonitorState) (hourStart : Nat) : List RequestRow :=
  s.apiRequests.filter fun r =>
    decide (hourStart ≤ r.timestamp ∧ r.timestamp < hourStart + 60)

/-- Model of `SpendingDatabase.update_hourly_aggregate`: recompute
`SUM(cost_usd)` and `COUNT(*)` over the hour window from `api_requests`,
then `INSERT OR REPLACE` the `hourly_spending` row (the `UNIQUE(hour_start)`
conflict row is deleted and the fresh row inserted).  Returns the recomputed
total. -/
def updateHourlyAggregate (s : MonitorState) (hourStart : Nat) : ℚ × MonitorState :=
  let rs := rowsInHour s hourStart
  let total := (rs.map RequestRow.costUsd).sum
  (total, { s with hourlySpending :=
    (s.hourlySpending.filter fun r => r.hourStart != hourStart) ++
      [⟨hourStart, total, rs.length⟩] })

/-- Model of `SpendingDatabase.was_alert_sent`: `SELECT COUNT(*) ... WHERE
hour_start = ? AND alert_type = ?` compared with 0. -/
def wasAlertSent (s : MonitorState) (hourStart : Nat) (alertType : String) : Bool :=
  s.alertsSent.any fun r => r.hourStart == hourStart && r.alertType == alertType

/-- Model of `SpendingDatabase.record_alert_sent`: a plain `INSERT INTO
alerts_sent` — no uniqueness constraint, every call appends a row. -/
def recordAlertSent (s : MonitorState) (hourStart : Nat) (alertType : String)
    (totalSpend limitExceeded : ℚ) : MonitorState :=
  { s with alertsSent := s.alertsSent ++ [⟨hourStart, alertType, totalSpend, limitExceeded⟩] }

/-- Model of `SpendingMonitor.get_request_count_for_hour`: `COUNT(*)` over the
hour window. -/
def getRequestCountForHour (s : MonitorState) (hourStart : Nat) : Nat :=
  (rowsInHour s hourStart).length

/-- Alert type string used by `handle_limit_exceeded`. -/
def hourlyLimitAlertType : String := "hourly_limit_exceeded"

/-- Model of `SpendingMonitor.handle_limit_exceeded`: pre-check
`was_alert_sent` and return if already sent; otherwise build the alert
payload, dispatch through `AlertSystem.send_alerts` (the `notifier`
argument; its per-channel results are recorded in the trace but do not
influence any branch), then `record_alert_sent` unconditionally — "even if
they failed", per the source comment. -/
def handleLimitExceeded (notifier : AlertPayload → Bool × Bool) (hourlyLimit : ℚ)
    (s : MonitorState) (hourStart : Nat) (totalSpend : ℚ) : MonitorState :=
  if wasAlertSent s hourStart hourlyLimitAlertType then s
  else
    let overage := totalSpend - hourlyLimit
    let requestCount := getRequestCountForHour s hourStart
    let payload : AlertPayload := ⟨hourStart, totalSpend, hourlyLimit, overage, requestCount⟩
    let results := notifier payload
    recordAlertSent { s with dispatched := s.dispatched ++ [(payload, results)] }
      hourStart hourlyLimitAlertType totalSpend overage

/-- Model of `SpendingMonitor.process_webhook_data`.  `now` is the value read
from `datetime.now()`.  Mirrors the source: skip (returning `True`) when
`cost <= 0`; insert via `add_request` and return `True` early when it
reports the request as already processed; otherwise refresh the hourly
aggregate for the current hour and run the limit check.  No exception is
raised by any modelled operation, so the `except` branch returning `False`
is unreachable. -/
def processWebhookData (notifier : AlertPayload → Bool × Bool) (hourlyLimit : ℚ)
    (now : Nat) (s : MonitorState) (w : Event) : Bool × MonitorState :=
  if w.cost ≤ 0 then (true, s)
  else
    let r := addRequest s w now
    if r.1 then
      let currentHour := hourStartOf now
      let r2 := updateHourlyAggregate r.2 currentHour
      if r2.1 > hourlyLimit then
        (true, handleLimitExceeded notifier hourlyLimit r2.2 currentHour r2.1)
      else (true, r2.2)
    else (true, r.2)

/-- Sequential processing of a trace of `(now, event)` webhook deliveries
through `SpendingMonitor.process_webhook_data`. -/
def ingestTrace (notifier : AlertPayload → Bool × Bool) (hourlyLimit : ℚ)
    (trace : List (Nat × Event)) (s : MonitorState) : MonitorState :=
  trace.foldl (fun s p => (processWebhookData notifier hourlyLimit p.1 s p.2).2) s

/-- Row of `main.py`'s `spending_log` table (`request_id TEXT UNIQUE`,
nullable: SQLite `UNIQUE` treats NULLs as pairwise distinct). -/
structure LogRow where
  requestId : Option String
  timestamp : Nat
  hourBucket : Nat
  cost : ℚ
  model : String
  userId : Option String
  tokensTotal : Nat
deriving DecidableEq

/-- Row of `main.py`'s `hourly_alerts` table (`hour_bucket TEXT UNIQUE`,
`alert_sent BOOLEAN DEFAULT FALSE`). -/
structure HourlyAlertRow where
  hourBucket : Nat
  totalCost : ℚ
  alertSent : Bool
deriving DecidableEq

/-- State of the `SpendingTracker` path of `main.py`: its two tables plus the
trace of `send_alert` invocations `(hour_bucket, current_total, success)`. -/
structure TrackerState where
  spendingLog : List LogRow
  hourlyAlerts : List HourlyAlertRow
  dispatched : List (Nat × ℚ × Bool)
deriving DecidableEq

/-- Freshly initialized tracker database. -/
def TrackerState.empty : TrackerState := ⟨[], [], []⟩

attribute [ext] MonitorState TrackerState

/-- Model of `get_hour_bucket` (`strftime("%Y-%m-%d-%H")`): the hour-bucket
identifier of a timestamp. -/
def hourBucketOf (now : Nat) : Nat := now / 60

/-- Model of `SpendingTracker.log_spending`: `INSERT OR REPLACE` the spending
row keyed by the nullable `UNIQUE request_id` (a conflicting row is deleted
and the fresh row appended; a `None` id never conflicts), recompute
`SUM(cost)` for the hour bucket, then `INSERT OR REPLACE` the
`hourly_alerts` summary — which resets `alert_sent` to its default
`FALSE`, since the replacing insert does not supply that column.  Returns
the current hourly total. -/
def logSpending (s : TrackerState) (now : Nat) (w : Event) : ℚ × TrackerState :=
  let hb := hourBucketOf now
  let row : LogRow :=
    ⟨w.requestId, now, hb, w.cost, w.model.getD "unknown", w.userId, w.totalTokens.getD 0⟩
  let log2 :=
    match w.requestId with
    | none => s.spendingLog ++ [row]
    | some k => (s.spendingLog.filter fun r => r.requestId != some k) ++ [row]
  let total := ((log2.filter fun r => r.hourBucket == hb).map LogRow.cost).sum
  (total,
    { spendingLog := log2
      hourlyAlerts := (s.hourlyAlerts.filter fun r => r.hourBucket != hb) ++ [⟨hb, total, false⟩]
      dispatched := s.dispatched })

/-- Model of `SpendingTracker.check_and_send_alert`: return `False` when the
total does not exceed the threshold; return `False` when a row with
`alert_sent = TRUE` exists for the bucket; otherwise dispatch via
`send_alert` (the `notifier` argument) and mark `alert_sent = TRUE` only
when the notifier reports success. -/
def checkAndSendAlert (notifier : Nat → ℚ → Bool) (threshold : ℚ)
    (s : TrackerState) (hb : Nat) (currentTotal : ℚ) : Bool × TrackerState :=
  if currentTotal ≤ threshold then (false, s)
  else if s.hourlyAlerts.any (fun r => r.hourBucket == hb && r.alertSent) then (false, s)
  else
    let ok := notifier hb currentTotal
    let s2 := { s with dispatched := s.dispatched ++ [(hb, currentTotal, ok)] }
    if ok then
      (true, { s2 with hourlyAlerts := s2.hourlyAlerts.map fun r =>
        if r.hourBucket == hb then { r with alertSent := true } else r })
    else (false, s2)

/-- Model of the core of `main.py`'s `webhook_handler`: compute the hour
bucket, log the spending, then check and send the alert.  Returns the pair
`(hourly_total, alert_sent)` reported in the JSON response, with the new
state. -/
def webhookHandler (notifier : Nat → ℚ → Bool) (threshold : ℚ) (now : Nat)
    (s : TrackerState) (w : Event) : (ℚ × Bool) × TrackerState :=
  let hb := hourBucketOf now
  let r := logSpending s now w
  let r2 := checkAndSendAlert notifier threshold r.2 hb r.1
  ((r.1, r2.1), r2.2)

/-- Sequential processing of a trace of webhook deliveries through `main.py`'s
handler. -/
def trackerTrace (notifier : Nat → ℚ → Bool) (threshold : ℚ)
    (trace : List (Nat × Event)) (s : TrackerState) : TrackerState :=
  trace.foldl (fun s p => (webhookHandler notifier threshold p.1 s p.2).2) s

/-- Truthiness of an optional string, as Python's `not x` sees it: missing or
empty. -/
def strFalsy : Option String → Bool
  | none => true
  | some s => s == ""

/-- Model of `main.py`'s `verify_webhook_signature`.  `hmacHex` abstracts
`hmac.new(secret, payload, sha256).hexdigest()` (an external primitive);
`hmac.compare_digest` on hex strings is string equality.  When no secret is
configured (`if not WEBHOOK_SECRET`), the source returns `True` — "Allow
for testing". -/
def verifyWebhookSignatureMain (hmacHex : String → String → String)
    (secret : Option String) (payload signature : String) : Bool :=
  match secret with
  | none => true
  | some sec => if sec == "" then true else hmacHex sec payload == signature

/-- Model of `webhook_server.py`'s `verify_webhook_signature`: `if not
signature or not secret: return False` — fails closed when either is
missing or empty, otherwise compares the HMAC hex digest. -/
def verifyWebhookSignatureServer (hmacHex : String → String → String)
    (payload : String) (signature secret : Option String) : Bool :=
  if strFalsy signature || strFalsy secret then false
  else hmacHex (secret.getD "") payload == (signature.getD "")

/-- Local state of one caller running `handle_limit_exceeded` in the
interleaved model: whether it has executed the `was_alert_sent` read, the
value that read returned, and whether it has finished. -/
structure ClaimCaller where
  checked : Bool
  seenSent : Bool
  done : Bool
deriving DecidableEq

/-- Caller about to start `handle_limit_exceeded`. -/
def ClaimCaller.start : ClaimCaller := ⟨false, false, false⟩

/-- One atomic database step of `handle_limit_exceeded` for one caller
against the shared database state.  Step 1 is the `was_alert_sent`
`SELECT`; step 2 either returns (if the read saw an existing alert) or
dispatches the notification and runs the `record_alert_sent` `INSERT`.
The schema provides no uniqueness constraint for that insert, so the
insert succeeds unconditionally. -/
def claimStep (notifier : AlertPayload → Bool × Bool) (hourlyLimit : ℚ)
    (hourStart : Nat) (totalSpend : ℚ) (s : MonitorState) (c : ClaimCaller) :
    MonitorState × ClaimCaller :=
  if c.checked = false then
    (s, ⟨true, wasAlertSent s hourStart hourlyLimitAlertType, false⟩)
  else if c.done = false then
    if c.seenSent then (s, { c with done := true })
    else
      let overage := totalSpend - hourlyLimit
      let payload : AlertPayload :=
        ⟨hourStart, totalSpend, hourlyLimit, overage, getRequestCountForHour s hourStart⟩
      (recordAlertSent { s with dispatched := s.dispatched ++ [(payload, notifier payload)] }
        hourStart hourlyLimitAlertType totalSpend overage,
       { c with done := true })
  else (s, c)

/-- Run two concurrent callers of `handle_limit_exceeded` under an explicit
interleaving schedule: `true` picks caller A's next atomic step, `false`
picks caller B's. -/
def runSchedule (notifier : AlertPayload → Bool × Bool) (hourlyLimit : ℚ)
    (hourStart : Nat) (totalSpend : ℚ) :
    List Bool → MonitorState → ClaimCaller → ClaimCaller →
    MonitorState × ClaimCaller × ClaimCaller
  | [], s, a, b => (s, a, b)
  | pick :: rest, s, a, b =>
    if pick then
      let r := claimStep notifier hourlyLimit hourStart totalSpend s a
      runSchedule notifier hourlyLimit hourStart totalSpend rest r.1 r.2 b
    else
      let r := claimStep notifier hourlyLimit hourStart totalSpend s b
      runSchedule notifier hourlyLimit hourStart totalSpend rest r.1 a r.2

/-- Serialized execution: `n` callers each run `handle_limit_exceeded` to
completion, one after the other. -/
def runSequentialClaims (notifier : AlertPayload → Bool × Bool) (hourlyLimit : ℚ)
    (hourStart : Nat) (totalSpend : ℚ) : Nat → MonitorState → MonitorState
  | 0, s => s
  | n + 1, s =>
    runSequentialClaims notifier hourlyLimit hourStart totalSpend n
      (handleLimitExceeded notifier hourlyLimit s hourStart totalSpend)

/-- First index `j` such that the prefix sum `c₀ + ⋯ + c_j` strictly exceeds
`limit`, if any: the step of the event sequence at which the cumulative
hourly total first crosses the threshold. -/
def firstCross (limit : ℚ) : List ℚ → Option Nat
  | [] => none
  | c :: cs => if limit < c then some 0 else (firstCross (limit - c) cs).map (· + 1)

/-- Sum of the first `n` entries of a cost list. -/
def prefixTotal (cs : List ℚ) (n : Nat) : ℚ := (cs.take n).sum

/-- Ledger row produced for an event ingested at time `ts`. -/
def rowOf (ts : Nat) (e : Event) : RequestRow :=
  ⟨e.requestId.getD "", ts, e.cost, e.model, e.userId, e.totalTokens⟩

/-- Closed-form description of the `SpendingMonitor` state after sequentially
ingesting, from an empty database, a trace of positive-cost events with
pairwise-distinct present request ids, all landing in the hour bucket
starting at `h`: the ledger holds one row per event, the hour aggregate is
the recomputed total and count, and the alert record and notifier dispatch
exist exactly when some prefix total strictly exceeds the limit — produced
at the first such prefix. -/
def expectedMonitor (notifier : AlertPayload → Bool × Bool) (hourlyLimit : ℚ)
    (h : Nat) (trace : List (Nat × Event)) : MonitorState :=
  let cs := trace.map fun p => p.2.cost
  { apiRequests := trace.map fun p => rowOf p.1 p.2
    hourlySpending :=
      if trace.isEmpty then [] else [⟨h, cs.sum, trace.length⟩]
    alertsSent :=
      match firstCross hourlyLimit cs with
      | none => []
      | some j =>
        [⟨h, hourlyLimitAlertType, prefixTotal cs (j + 1), prefixTotal cs (j + 1) - hourlyLimit⟩]
    dispatched :=
      match firstCross hourlyLimit cs with
      | none => []
      | some j =>
        let payload : AlertPayload :=
          ⟨h, prefixTotal cs (j + 1), hourlyLimit, prefixTotal cs (j + 1) - hourlyLimit, j + 1⟩
        [(payload, notifier payload)] }

/-- Pairwise distinctness of the `(hour_start, alert_type)` keys of the alert
store: the C3 invariant. -/
def AlertsDedup (s : MonitorState) : Prop :=
  s.alertsSent.Pairwise fun a b => (a.hourStart, a.alertType) ≠ (b.hourStart, b.alertType)

/-- Notifier-independent observation of a monitor state: everything except the
per-channel results recorded in the dispatch trace. -/
def MonitorState.obs (s : MonitorState) :
    List RequestRow × List HourlyRow × List AlertRow × List AlertPayload :=
  (s.apiRequests, s.hourlySpending, s.alertsSent, s.dispatched.map Prod.fst)

/-! Helper lemmas about single webhook-processing steps. -/

theorem processWebhookData_cost_nonpos (notifier : AlertPayload → Bool × Bool)
    (hourlyLimit : ℚ) (now : Nat) (s : MonitorState) (w : Event) (h : w.cost ≤ 0) :
    processWebhookData notifier hourlyLimit now s w = (true, s) := by
  simp [processWebhookData, h]

theorem processWebhookData_requestId_none (notifier : AlertPayload → Bool × Bool)
    (hourlyLimit : ℚ) (now : Nat) (s : MonitorState) (w : Event) (h : w.requestId = none) :
    processWebhookData notifier hourlyLimit now s w = (true, s) := by
  by_cases hc : w.cost ≤ 0
  · exact processWebhookData_cost_nonpos _ _ _ _ _ hc
  · simp [processWebhookData, hc, addRequest, h]

theorem processWebhookData_dup (notifier : AlertPayload → Bool × Bool)
    (hourlyLimit : ℚ) (now : Nat) (s : MonitorState) (w : Event) (k : String)
    (hk : w.requestId = some k)
    (hmem : (s.apiRequests.any fun r => r.requestId == k) = true) :
    processWebhookData notifier hourlyLimit now s w = (true, s) := by
  by_cases hc : w.cost ≤ 0
  · exact processWebhookData_cost_nonpos _ _ _ _ _ hc
  · simp [processWebhookData, hc, addRequest, hk, hmem]

theorem addRequest_alertsSent (s : MonitorState) (e : Event) (ts : Nat) :
    (addRequest s e ts).2.alertsSent = s.alertsSent := by
  unfold addRequest
  cases e.requestId
  · rfl
  · simp only
    split <;> rfl

theorem addRequest_dispatched (s : MonitorState) (e : Event) (ts : Nat) :
    (addRequest s e ts).2.dispatched = s.dispatched := by
  unfold addRequest
  cases e.requestId
  · rfl
  · simp only
    split <;> rfl

theorem updateHourlyAggregate_alertsSent (s : MonitorState) (h : Nat) :
    (updateHourlyAggregate s h).2.alertsSent = s.alertsSent := rfl

theorem updateHourlyAggregate_dispatched (s : MonitorState) (h : Nat) :
    (updateHourlyAggregate s h).2.dispatched = s.dispatched := rfl

theorem wasAlertSent_eq_false_iff (s : MonitorState) (h : Nat) (ty : String) :
    wasAlertSent s h ty = false ↔
      ∀ r ∈ s.alertsSent, ¬(r.hourStart = h ∧ r.alertType = ty) := by
  simp [wasAlertSent, List.any_eq_false]

theorem handleLimitExceeded_alertsSent_of_sent (notifier : AlertPayload → Bool × Bool)
    (hourlyLimit : ℚ) (s : MonitorState) (h : Nat) (t : ℚ)
    (hsent : wasAlertSent s h hourlyLimitAlertType = true) :
    handleLimitExceeded notifier hourlyLimit s h t = s := by
  unfold handleLimitExceeded
  simp [hsent]

theorem handleLimitExceeded_of_not_sent (notifier : AlertPayload → Bool × Bool)
    (hourlyLimit : ℚ) (s : MonitorState) (h : Nat) (t : ℚ)
    (hsent : wasAlertSent s h hourlyLimitAlertType = false) :
    handleLimitExceeded notifier hourlyLimit s h t =
      { s with
        dispatched := s.dispatched ++
          [(⟨h, t, hourlyLimit, t - hourlyLimit, getRequestCountForHour s h⟩,
            notifier ⟨h, t, hourlyLimit, t - hourlyLimit, getRequestCountForHour s h⟩)]
        alertsSent := s.alertsSent ++
          [⟨h, hourlyLimitAlertType, t, t - hourlyLimit⟩] } := by
  unfold handleLimitExceeded
  simp [hsent, recordAlertSent]

theorem AlertsDedup_handleLimitExceeded (notifier : AlertPayload → Bool × Bool)
    (hourlyLimit : ℚ) (s : MonitorState) (h : Nat) (t : ℚ)
    (hs : AlertsDedup s) :
    AlertsDedup (handleLimitExceeded notifier hourlyLimit s h t) := by
  by_cases hsent : wasAlertSent s h hourlyLimitAlertType = true
  · rw [handleLimitExceeded_alertsSent_of_sent _ _ _ _ _ hsent]
    exact hs
  · rw [Bool.not_eq_true] at hsent
    rw [handleLimitExceeded_of_not_sent _ _ _ _ _ hsent]
    rw [wasAlertSent_eq_false_iff] at hsent
    unfold AlertsDedup at hs ⊢
    rw [List.pairwise_append]
    refine ⟨hs, List.pairwise_singleton _ _, ?_⟩
    intro a ha b hb
    simp only [List.mem_singleton] at hb
    subst hb
    have := hsent a ha
    intro hcontra
    apply this
    have h1 := congrArg Prod.fst hcontra
    have h2 := congrArg Prod.snd hcontra
    exact ⟨h1, h2⟩

theorem AlertsDedup_process (notifier : AlertPayload → Bool × Bool) (hourlyLimit : ℚ)
    (now : Nat) (s : MonitorState) (w : Event) (hs : AlertsDedup s) :
    AlertsDedup (processWebhookData notifier hourlyLimit now s w).2 := by
  simp only [processWebhookData]
  split
  · exact hs
  · have ha : AlertsDedup (addRequest s w now).2 := by
      unfold AlertsDedup at hs ⊢
      rw [addRequest_alertsSent]
      exact hs
    split
    · have hu : AlertsDedup (updateHourlyAggregate (addRequest s w now).2 (hourStartOf now)).2 := by
        unfold AlertsDedup at ha ⊢
        rw [updateHourlyAggregate_alertsSent]
        exact ha
      split
      · exact AlertsDedup_handleLimitExceeded _ _ _ _ _ hu
      · exact hu
    · exact ha

theorem ingestTrace_dedup (notifier : AlertPayload → Bool × Bool) (hourlyLimit : ℚ) :
    ∀ (trace : List (Nat × Event)) (s : MonitorState),
      AlertsDedup s → AlertsDedup (ingestTrace notifier hourlyLimit trace s)
  | [], _, hs => hs
  | p :: rest, s, hs =>
    ingestTrace_dedup notifier hourlyLimit rest _
      (AlertsDedup_process notifier hourlyLimit p.1 s p.2 hs)

theorem prefixTotal_zero (cs : List ℚ) : prefixTotal cs 0 = 0 := rfl

theorem prefixTotal_cons_succ (c : ℚ) (cs : List ℚ) (n : Nat) :
    prefixTotal (c :: cs) (n + 1) = c + prefixTotal cs n := by
  simp [prefixTotal]

theorem prefixTotal_length (cs : List ℚ) : prefixTotal cs cs.length = cs.sum := by
  simp [prefixTotal]

theorem prefixTotal_append_of_le (cs ds : List ℚ) (n : Nat) (hn : n ≤ cs.length) :
    prefixTotal (cs ++ ds) n = prefixTotal cs n := by
  unfold prefixTotal
  rw [List.take_append_of_le_length hn]

theorem prefixTotal_le_sum (cs : List ℚ) (hpos : ∀ x ∈ cs, 0 ≤ x) :
    ∀ n, prefixTotal cs n ≤ cs.sum := by
  induction cs with
  | nil => intro n; simp [prefixTotal]
  | cons c cs ih =>
    intro n
    cases n with
    | zero =>
      rw [prefixTotal_zero, List.sum_cons]
      have h1 : (0 : ℚ) ≤ c := hpos c (List.mem_cons_self c cs)
      have h2 : (0 : ℚ) ≤ cs.sum :=
        List.sum_nonneg fun x hx => hpos x (List.mem_cons_of_mem c hx)
      linarith
    | succ n =>
      rw [prefixTotal_cons_succ, List.sum_cons]
      have := ih (fun x hx => hpos x (List.mem_cons_of_mem c hx)) n
      linarith

theorem firstCross_append_some (L : ℚ) (cs ds : List ℚ) (j : Nat)
    (h : firstCross L cs = some j) : firstCross L (cs ++ ds) = some j := by
  induction cs generalizing L j with
  | nil => simp [firstCross] at h
  | cons c cs ih =>
    rw [firstCross] at h
    rw [List.cons_append, firstCross]
    by_cases hLc : L < c
    · rw [if_pos hLc] at h ⊢; exact h
    · rw [if_neg hLc] at h ⊢
      rw [Option.map_eq_some'] at h
      obtain ⟨j2, hj2, rfl⟩ := h
      rw [ih _ _ hj2]
      rfl

theorem firstCross_append_singleton_none (L : ℚ) (cs : List ℚ) (c : ℚ)
    (h : firstCross L cs = none) :
    firstCross L (cs ++ [c]) = if L < cs.sum + c then some cs.length else none := by
  induction cs generalizing L with
  | nil =>
    simp only [List.nil_append, List.sum_nil, List.length_nil, zero_add]
    rw [firstCross, firstCross]
    rfl
  | cons a cs ih =>
    rw [firstCross] at h
    by_cases hLa : L < a
    · rw [if_pos hLa] at h; exact absurd h (by simp)
    · rw [if_neg hLa] at h
      rw [Option.map_eq_none'] at h
      rw [List.cons_append, firstCross, if_neg hLa, ih _ h]
      by_cases h2 : L - a < cs.sum + c
      · rw [if_pos h2, if_pos (by rw [List.sum_cons]; linarith), List.length_cons]
        rfl
      · rw [if_neg h2, if_neg (by rw [List.sum_cons]; intro hcon; exact h2 (by linarith))]
        rfl

theorem firstCross_some_lt_length (L : ℚ) (cs : List ℚ) (j : Nat)
    (h : firstCross L cs = some j) : j < cs.length := by
  induction cs generalizing L j with
  | nil => simp [firstCross] at h
  | cons c cs ih =>
    rw [firstCross] at h
    by_cases hLc : L < c
    · rw [if_pos hLc] at h
      injection h with h
      subst h
      simp
    · rw [if_neg hLc, Option.map_eq_some'] at h
      obtain ⟨j2, hj2, rfl⟩ := h
      have := ih _ _ hj2
      simp only [List.length_cons]
      omega

theorem firstCross_some_gt (L : ℚ) (cs : List ℚ) (j : Nat)
    (h : firstCross L cs = some j) : L < prefixTotal cs (j + 1) := by
  induction cs generalizing L j with
  | nil => simp [firstCross] at h
  | cons c cs ih =>
    rw [firstCross] at h
    by_cases hLc : L < c
    · rw [if_pos hLc] at h
      injection h with h
      subst h
      rw [prefixTotal_cons_succ, prefixTotal_zero]
      linarith
    · rw [if_neg hLc, Option.map_eq_some'] at h
      obtain ⟨j2, hj2, rfl⟩ := h
      have := ih _ _ hj2
      rw [prefixTotal_cons_succ]
      linarith

theorem hour_window_mem (t h : Nat) (ht : hourStartOf t = h) :
    decide (h ≤ t ∧ t < h + 60) = true := by
  rw [decide_eq_true_eq]
  unfold hourStartOf at ht
  omega

theorem updateHourlyAggregate_apiRequests (s : MonitorState) (h : Nat) :
    (updateHourlyAggregate s h).2.apiRequests = s.apiRequests := rfl

theorem ingestTrace_nil (notifier : AlertPayload → Bool × Bool) (hourlyLimit : ℚ)
    (s : MonitorState) : ingestTrace notifier hourlyLimit [] s = s := rfl

theorem ingestTrace_append (notifier : AlertPayload → Bool × Bool) (hourlyLimit : ℚ)
    (t1 t2 : List (Nat × Event)) (s : MonitorState) :
    ingestTrace notifier hourlyLimit (t1 ++ t2) s =
      ingestTrace notifier hourlyLimit t2 (ingestTrace notifier hourlyLimit t1 s) := by
  unfold ingestTrace
  rw [List.foldl_append]

theorem process_step_expected (notifier : AlertPayload → Bool × Bool) (L : ℚ) (h : Nat)
    (trace : List (Nat × Event)) (p : Nat × Event)
    (hh : ∀ q ∈ trace ++ [p], hourStartOf q.1 = h)
    (hpos : ∀ q ∈ trace ++ [p], 0 < q.2.cost)
    (hsome : ∀ q ∈ trace ++ [p], q.2.requestId.isSome = true)
    (hnd : ((trace ++ [p]).map fun q => q.2.requestId).Nodup) :
    processWebhookData notifier L p.1 (expectedMonitor notifier L h trace) p.2 =
      (true, expectedMonitor notifier L h (trace ++ [p])) := by
  have hpmem : p ∈ trace ++ [p] := List.mem_append_right _ (List.mem_singleton.mpr rfl)
  obtain ⟨k, hk⟩ := Option.isSome_iff_exists.mp (hsome p hpmem)
  have hc : ¬p.2.cost ≤ 0 := not_le.mpr (hpos p hpmem)
  have hhp : hourStartOf p.1 = h := hh p hpmem
  have hknotin : some k ∉ trace.map fun q => q.2.requestId := by
    intro hmem
    rw [List.map_append] at hnd
    exact (List.nodup_append.mp hnd).2.2 hmem (by simp [hk])
  have hany : ((expectedMonitor notifier L h trace).apiRequests.any
      fun r => r.requestId == k) = false := by
    rw [List.any_eq_false]
    intro r hr
    simp only [expectedMonitor] at hr
    rw [List.mem_map] at hr
    obtain ⟨q, hq, rfl⟩ := hr
    obtain ⟨k2, hk2⟩ := Option.isSome_iff_exists.mp (hsome q (List.mem_append_left _ hq))
    simp only [rowOf, hk2, Option.getD_some]
    intro hEq
    rw [beq_iff_eq] at hEq
    subst hEq
    exact hknotin (List.mem_map.mpr ⟨q, hq, hk2⟩)
  have hins : addRequest (expectedMonitor notifier L h trace) p.2 p.1 =
      (true, { expectedMonitor notifier L h trace with
        apiRequests := (expectedMonitor notifier L h trace).apiRequests ++ [rowOf p.1 p.2] }) := by
    simp only [addRequest, hk, hany, Bool.false_eq_true, if_false]
    simp [rowOf, hk]
  set E1 : MonitorState := { expectedMonitor notifier L h trace with
    apiRequests := (expectedMonitor notifier L h trace).apiRequests ++ [rowOf p.1 p.2] }
    with hE1
  set cs : List ℚ := trace.map fun q => q.2.cost with hcs
  have hwinAll : ∀ r ∈ E1.apiRequests,
      (decide (h ≤ r.timestamp ∧ r.timestamp < h + 60)) = true := by
    intro r hr
    rw [hE1] at hr
    simp only [List.mem_append] at hr
    rcases hr with hr | hr
    · simp only [expectedMonitor] at hr
      rw [List.mem_map] at hr
      obtain ⟨q, hq, rfl⟩ := hr
      exact hour_window_mem q.1 h (hh q (List.mem_append_left _ hq))
    · rw [List.mem_singleton] at hr
      subst hr
      exact hour_window_mem p.1 h hhp
  have hrows : rowsInHour E1 h = E1.apiRequests := by
    unfold rowsInHour
    exact List.filter_eq_self.mpr hwinAll
  have hcosts : E1.apiRequests.map RequestRow.costUsd = cs ++ [p.2.cost] := by
    rw [hE1, hcs]
    simp only [expectedMonitor, List.map_append, List.map_map]
    rfl
  have hlen : E1.apiRequests.length = trace.length + 1 := by
    rw [hE1]
    simp [expectedMonitor]
  have hfil : (E1.hourlySpending.filter fun r => r.hourStart != h) = [] := by
    rw [hE1]
    simp only [expectedMonitor]
    cases trace <;> simp
  have hupd : updateHourlyAggregate E1 h =
      (cs.sum + p.2.cost,
        { E1 with hourlySpending := [⟨h, cs.sum + p.2.cost, trace.length + 1⟩] }) := by
    simp only [updateHourlyAggregate]
    rw [hrows, hcosts, hfil, hlen]
    rw [List.sum_append, List.sum_singleton]
    rfl
  simp only [processWebhookData]
  rw [if_neg hc, hins]
  dsimp only
  rw [hhp, hupd]
  dsimp only
  by_cases hgt : cs.sum + p.2.cost > L
  · rw [if_pos hgt]
    cases hcross : firstCross L cs with
    | some j =>
      have hsent : wasAlertSent
          { E1 with hourlySpending := [⟨h, cs.sum + p.2.cost, trace.length + 1⟩] }
          h hourlyLimitAlertType = true := by
        simp only [wasAlertSent, hE1, expectedMonitor]
        rw [← hcs, hcross]
        simp
      rw [handleLimitExceeded_alertsSent_of_sent _ _ _ _ _ hsent]
      have hj := firstCross_some_lt_length L cs j hcross
      have happ := firstCross_append_some L cs [p.2.cost] j hcross
      simp only [expectedMonitor, List.map_append, List.map_cons, List.map_nil, ← hcs,
        happ, hcross, hE1]
      refine congrArg (Prod.mk true) ?_
      refine MonitorState.ext ?_ ?_ ?_ ?_ <;>
        simp [prefixTotal_append_of_le cs [p.2.cost] (j + 1) (by omega)]
    | none =>
      have hsent : wasAlertSent
          { E1 with hourlySpending := [⟨h, cs.sum + p.2.cost, trace.length + 1⟩] }
          h hourlyLimitAlertType = false := by
        simp only [wasAlertSent, hE1, expectedMonitor]
        rw [← hcs, hcross]
        simp
      rw [handleLimitExceeded_of_not_sent _ _ _ _ _ hsent]
      have hcount : getRequestCountForHour
          { E1 with hourlySpending := [⟨h, cs.sum + p.2.cost, trace.length + 1⟩] } h =
          trace.length + 1 := by
        unfold getRequestCountForHour rowsInHour
        have : ({ E1 with
            hourlySpending := [⟨h, cs.sum + p.2.cost, trace.length + 1⟩] } :
              MonitorState).apiRequests = E1.apiRequests := rfl
        rw [this, List.filter_eq_self.mpr hwinAll, hlen]
      have hcross2 : firstCross L (cs ++ [p.2.cost]) = some trace.length := by
        rw [firstCross_append_singleton_none L cs p.2.cost hcross, if_pos (by linarith),
          hcs, List.length_map]
      rw [hcount]
      simp only [expectedMonitor, List.map_append, List.map_cons, List.map_nil, ← hcs,
        hcross2, hcross, hE1]
      refine congrArg (Prod.mk true) ?_
      have hpt : prefixTotal (cs ++ [p.2.cost]) (trace.length + 1) = cs.sum + p.2.cost := by
        have hlcs : (cs ++ [p.2.cost]).length = trace.length + 1 := by
          rw [List.length_append, hcs, List.length_map, List.length_singleton]
        rw [← hlcs, prefixTotal_length, List.sum_append, List.sum_singleton]
      refine MonitorState.ext ?_ ?_ ?_ ?_ <;> simp [hpt]
  · rw [if_neg hgt]
    have hnn : ∀ x ∈ cs, (0 : ℚ) ≤ x := by
      intro x hx
      rw [hcs, List.mem_map] at hx
      obtain ⟨q, hq, rfl⟩ := hx
      exact le_of_lt (hpos q (List.mem_append_left _ hq))
    have hcross0 : firstCross L cs = none := by
      cases hcr : firstCross L cs with
      | none => rfl
      | some j =>
        have h1 := firstCross_some_gt L cs j hcr
        have h2 := prefixTotal_le_sum cs hnn (j + 1)
        have h3 : 0 < p.2.cost := hpos p hpmem
        rw [gt_iff_lt, not_lt] at hgt
        linarith
    have hcross2 : firstCross L (cs ++ [p.2.cost]) = none := by
      rw [firstCross_append_singleton_none L cs p.2.cost hcross0, if_neg (by
        rw [gt_iff_lt, not_lt] at hgt
        exact not_lt.mpr hgt)]
    simp only [expectedMonitor, List.map_append, List.map_cons, List.map_nil, ← hcs,
      hcross2, hcross0, hE1]
    refine congrArg (Prod.mk true) ?_
    refine MonitorState.ext ?_ ?_ ?_ ?_ <;> simp

theorem ingestTrace_singleton (notifier : AlertPayload → Bool × Bool) (hourlyLimit : ℚ)
    (p : Nat × Event) (s : MonitorState) :
    ingestTrace notifier hourlyLimit [p] s =
      (processWebhookData notifier hourlyLimit p.1 s p.2).2 := rfl

theorem ingestTrace_expected (notifier : AlertPayload → Bool × Bool) (L : ℚ) (h : Nat)
    (trace : List (Nat × Event))
    (hh : ∀ q ∈ trace, hourStartOf q.1 = h)
    (hpos : ∀ q ∈ trace, 0 < q.2.cost)
    (hsome : ∀ q ∈ trace, q.2.requestId.isSome = true)
    (hnd : (trace.map fun q => q.2.requestId).Nodup) :
    ingestTrace notifier L trace MonitorState.empty = expectedMonitor notifier L h trace := by
  induction trace using List.reverseRecOn with
  | nil => rfl
  | append_singleton l p ih =>
    rw [ingestTrace_append]
    rw [ih (fun q hq => hh q (List.mem_append_left _ hq))
      (fun q hq => hpos q (List.mem_append_left _ hq))
      (fun q hq => hsome q (List.mem_append_left _ hq))
      (by rw [List.map_append] at hnd; exact (List.nodup_append.mp hnd).1)]
    rw [ingestTrace_singleton]
    rw [process_step_expected notifier L h l p hh hpos hsome hnd]

/-! C2 -/

/-- C2: for every threshold `L` and every trace of events — positive costs,
present pairwise-distinct request ids, every ingest landing in the hour
bucket starting at `h` — the alert fires exactly once, namely at the first
ingest whose cumulative hourly total strictly exceeds `L` (a cumulative
total exactly equal to `L` fires nothing): the dispatch trace and the alert
store of the final state each hold exactly one entry, carrying total
`prefixTotal cs (j+1)`, overage `total - L` and request count `j + 1` for
that first crossing index `j`, and nothing at all when no prefix total
exceeds `L`.  Moreover resubmitting any of the already-ingested events
leaves the dispatch trace unchanged (no re-fire within the hour). -/
theorem threshold_alert_fires_exactly_once (notifier : AlertPayload → Bool × Bool)
    (L : ℚ) (h : Nat) (trace : List (Nat × Event))
    (hh : ∀ q ∈ trace, hourStartOf q.1 = h)
    (hpos : ∀ q ∈ trace, 0 < q.2.cost)
    (hsome : ∀ q ∈ trace, q.2.requestId.isSome = true)
    (hnd : (trace.map fun q => q.2.requestId).Nodup) :
    (ingestTrace notifier L trace MonitorState.empty).dispatched =
      (match firstCross L (trace.map fun q => q.2.cost) with
        | none => []
        | some j =>
          [(⟨h, prefixTotal (trace.map fun q => q.2.cost) (j + 1), L,
              prefixTotal (trace.map fun q => q.2.cost) (j + 1) - L, j + 1⟩,
            notifier ⟨h, prefixTotal (trace.map fun q => q.2.cost) (j + 1), L,
              prefixTotal (trace.map fun q => q.2.cost) (j + 1) - L, j + 1⟩)]) ∧
    (ingestTrace notifier L trace MonitorState.empty).alertsSent =
      (match firstCross L (trace.map fun q => q.2.cost) with
        | none => []
        | some j =>
          [⟨h, hourlyLimitAlertType, prefixTotal (trace.map fun q => q.2.cost) (j + 1),
            prefixTotal (trace.map fun q => q.2.cost) (j + 1) - L⟩]) ∧
    (∀ q ∈ trace,
      (processWebhookData notifier L q.1 (ingestTrace notifier L trace MonitorState.empty)
        q.2).2.dispatched = (ingestTrace notifier L trace MonitorState.empty).dispatched) := by
  have hrun := ingestTrace_expected notifier L h trace hh hpos hsome hnd
  refine ⟨by rw [hrun]; rfl, by rw [hrun]; rfl, ?_⟩
  intro q hq
  obtain ⟨kq, hkq⟩ := Option.isSome_iff_exists.mp (hsome q hq)
  have hmem : ((ingestTrace notifier L trace MonitorState.empty).apiRequests.any
      fun r => r.requestId == kq) = true := by
    rw [hrun]
    rw [List.any_eq_true]
    refine ⟨rowOf q.1 q.2, ?_, ?_⟩
    · simp only [expectedMonitor]
      exact List.mem_map.mpr ⟨q, hq, rfl⟩
    · simp [rowOf, hkq]
  rw [processWebhookData_dup notifier L q.1 _ q.2 kq hkq hmem]

/-- Witness for C2, the concrete example from the specification: threshold 10,
five events of cost 5/2 each in the same hour bucket.  After the first four
events the cumulative total is exactly 10 and nothing is dispatched; the
fifth ingest crosses the threshold and dispatches exactly once with total
25/2, overage 5/2, request count 5. -/
theorem threshold_alert_fires_exactly_once_witness :
    (ingestTrace (fun _ => (true, true)) 10
        [(0, ⟨some "a", 5/2, none, none, none⟩), (1, ⟨some "b", 5/2, none, none, none⟩),
         (2, ⟨some "c", 5/2, none, none, none⟩), (3, ⟨some "d", 5/2, none, none, none⟩),
         (4, ⟨some "e", 5/2, none, none, none⟩)]
        MonitorState.empty).dispatched =
      [(⟨0, 25/2, 10, 5/2, 5⟩, (true, true))] ∧
    (ingestTrace (fun _ => (true, true)) 10
        [(0, ⟨some "a", 5/2, none, none, none⟩), (1, ⟨some "b", 5/2, none, none, none⟩),
         (2, ⟨some "c", 5/2, none, none, none⟩), (3, ⟨some "d", 5/2, none, none, none⟩)]
        MonitorState.empty).dispatched = [] := by
  constructor
  · have h5 := (threshold_alert_fires_exactly_once (fun _ => (true, true)) 10 0
      [(0, ⟨some "a", 5/2, none, none, none⟩), (1, ⟨some "b", 5/2, none, none, none⟩),
       (2, ⟨some "c", 5/2, none, none, none⟩), (3, ⟨some "d", 5/2, none, none, none⟩),
       (4, ⟨some "e", 5/2, none, none, none⟩)]
      (by decide) (by norm_num [List.forall_mem_cons]) (by decide) (by decide)).1
    rw [h5]
    norm_num [firstCross, prefixTotal, List.take]
  · have h4 := (threshold_alert_fires_exactly_once (fun _ => (true, true)) 10 0
      [(0, ⟨some "a", 5/2, none, none, none⟩), (1, ⟨some "b", 5/2, none, none, none⟩),
       (2, ⟨some "c", 5/2, none, none, none⟩), (3, ⟨some "d", 5/2, none, none, none⟩)]
      (by decide) (by norm_num [List.forall_mem_cons]) (by decide) (by decide)).1
    rw [h4]
    norm_num [firstCross]

theorem ingestTrace_replicate_dup (notifier : AlertPayload → Bool × Bool) (L : ℚ)
    (now : Nat) (e : Event) (k : String) (hk : e.requestId = some k) :
    ∀ (n : Nat) (s : MonitorState),
      (s.apiRequests.any fun r => r.requestId == k) = true →
      ingestTrace notifier L (List.replicate n (now, e)) s = s
  | 0, _, _ => rfl
  | n + 1, s, hmem => by
    rw [List.replicate_succ]
    show ingestTrace notifier L (List.replicate n (now, e))
      (processWebhookData notifier L now s e).2 = s
    rw [processWebhookData_dup notifier L now s e k hk hmem]
    exact ingestTrace_replicate_dup notifier L now e k hk n s hmem

theorem checkAndSendAlert_spendingLog (tn : Nat → ℚ → Bool) (T : ℚ) (s : TrackerState)
    (hb : Nat) (t : ℚ) : (checkAndSendAlert tn T s hb t).2.spendingLog = s.spendingLog := by
  simp only [checkAndSendAlert]
  split
  · rfl
  · split
    · rfl
    · split <;> rfl

theorem checkAndSendAlert_alerts_shape (tn : Nat → ℚ → Bool) (T : ℚ) (s : TrackerState)
    (hb2 : Nat) (t : ℚ) (hb : Nat) (c : ℚ) (b : Bool)
    (hs : s.hourlyAlerts = [⟨hb, c, b⟩]) :
    ∃ b2, (checkAndSendAlert tn T s hb2 t).2.hourlyAlerts = [⟨hb, c, b2⟩] := by
  simp only [checkAndSendAlert]
  split
  · exact ⟨b, hs⟩
  · split
    · exact ⟨b, hs⟩
    · split
      · by_cases hbb : (hb == hb2) = true
        · exact ⟨true, by simp only [hs, List.map_cons, List.map_nil, hbb, if_true]⟩
        · refine ⟨b, ?_⟩
          simp only [hs, List.map_cons, List.map_nil]
          rw [if_neg hbb]
      · exact ⟨b, hs⟩

theorem logSpending_single_row (s : TrackerState) (now : Nat) (e : Event) (k : String)
    (b : Bool) (hk : e.requestId = some k)
    (h1 : s.spendingLog = [⟨e.requestId, now, hourBucketOf now, e.cost,
      e.model.getD "unknown", e.userId, e.totalTokens.getD 0⟩])
    (h2 : s.hourlyAlerts = [⟨hourBucketOf now, e.cost, b⟩]) :
    logSpending s now e = (e.cost,
      ⟨[⟨e.requestId, now, hourBucketOf now, e.cost, e.model.getD "unknown", e.userId,
          e.totalTokens.getD 0⟩],
        [⟨hourBucketOf now, e.cost, false⟩], s.dispatched⟩) := by
  simp only [logSpending, hk, h1, h2, List.filter_cons, List.filter_nil, hk,
    bne_self_eq_false, Bool.false_eq_true, if_false, List.nil_append, List.singleton_append,
    beq_self_eq_true, if_true, List.map_cons, List.map_nil, List.sum_cons, List.sum_nil,
    add_zero]

theorem logSpending_from_empty (now : Nat) (e : Event) (k : String)
    (hk : e.requestId = some k) :
    logSpending TrackerState.empty now e = (e.cost,
      ⟨[⟨e.requestId, now, hourBucketOf now, e.cost, e.model.getD "unknown", e.userId,
          e.totalTokens.getD 0⟩],
        [⟨hourBucketOf now, e.cost, false⟩], []⟩) := by
  simp only [logSpending, hk, TrackerState.empty, List.filter_cons, List.filter_nil,
    List.nil_append, List.singleton_append, beq_self_eq_true, if_true, List.map_cons,
    List.map_nil, List.sum_cons, List.sum_nil, add_zero]

theorem trackerTrace_replicate_inv (tn : Nat → ℚ → Bool) (T : ℚ) (now : Nat) (e : Event)
    (k : String) (hk : e.requestId = some k) :
    ∀ (n : Nat) (s : TrackerState),
      s.spendingLog = [⟨e.requestId, now, hourBucketOf now, e.cost, e.model.getD "unknown",
        e.userId, e.totalTokens.getD 0⟩] →
      (∃ b, s.hourlyAlerts = [⟨hourBucketOf now, e.cost, b⟩]) →
      (trackerTrace tn T (List.replicate n (now, e)) s).spendingLog =
        [⟨e.requestId, now, hourBucketOf now, e.cost, e.model.getD "unknown", e.userId,
          e.totalTokens.getD 0⟩] ∧
      ∃ b, (trackerTrace tn T (List.replicate n (now, e)) s).hourlyAlerts =
        [⟨hourBucketOf now, e.cost, b⟩]
  | 0, s, h1, h2 => ⟨h1, h2⟩
  | n + 1, s, h1, h2 => by
    rw [List.replicate_succ]
    show (trackerTrace tn T (List.replicate n (now, e))
        (webhookHandler tn T now s e).2).spendingLog =
        [⟨e.requestId, now, hourBucketOf now, e.cost, e.model.getD "unknown", e.userId,
          e.totalTokens.getD 0⟩] ∧
      ∃ b, (trackerTrace tn T (List.replicate n (now, e))
        (webhookHandler tn T now s e).2).hourlyAlerts = [⟨hourBucketOf now, e.cost, b⟩]
    obtain ⟨b, hb2⟩ := h2
    have hlog := logSpending_single_row s now e k b hk h1 hb2
    have hwh : (webhookHandler tn T now s e).2 =
        (checkAndSendAlert tn T
          ⟨[⟨e.requestId, now, hourBucketOf now, e.cost, e.model.getD "unknown", e.userId,
              e.totalTokens.getD 0⟩],
            [⟨hourBucketOf now, e.cost, false⟩], s.dispatched⟩
          (hourBucketOf now) e.cost).2 := by
      simp only [webhookHandler, hlog]
    rw [hwh]
    apply trackerTrace_replicate_inv tn T now e k hk n
    · rw [checkAndSendAlert_spendingLog]
    · exact checkAndSendAlert_alerts_shape tn T _ _ _ _ _ _ rfl

/-! C1 -/

/-- C1: submitting the same event (same `request_id` and same positive cost)
`N ≥ 1` times at the same ingest time leaves, in both webhook-processing
paths, exactly one stored ledger row for that key, and an hour-aggregate
total for the affected bucket equal to a single submission's cost — never
`N` times it.  In the `SpendingMonitor` path the first submission inserts
and aggregates, and every redelivery is deduplicated by the
`INSERT OR IGNORE` and returns early; in the `main.py` tracker path each
redelivery replaces the single row and recomputes the same total. -/
theorem idempotent_submission_single_row_single_total
    (notifier : AlertPayload → Bool × Bool) (tn : Nat → ℚ → Bool) (L T : ℚ)
    (now : Nat) (e : Event) (k : String) (N : Nat)
    (hk : e.requestId = some k) (hc : 0 < e.cost) (hN : 1 ≤ N) :
    (ingestTrace notifier L (List.replicate N (now, e)) MonitorState.empty).apiRequests =
      [⟨k, now, e.cost, e.model, e.userId, e.totalTokens⟩] ∧
    (ingestTrace notifier L (List.replicate N (now, e)) MonitorState.empty).hourlySpending =
      [⟨hourStartOf now, e.cost, 1⟩] ∧
    (trackerTrace tn T (List.replicate N (now, e)) TrackerState.empty).spendingLog =
      [⟨some k, now, hourBucketOf now, e.cost, e.model.getD "unknown", e.userId,
        e.totalTokens.getD 0⟩] ∧
    ((trackerTrace tn T (List.replicate N (now, e)) TrackerState.empty).hourlyAlerts.map
      fun r => (r.hourBucket, r.totalCost)) = [(hourBucketOf now, e.cost)] := by
  obtain ⟨m, rfl⟩ : ∃ m, N = m + 1 := ⟨N - 1, (Nat.succ_pred_eq_of_pos hN).symm⟩
  have hE : (processWebhookData notifier L now MonitorState.empty e).2 =
      expectedMonitor notifier L (hourStartOf now) [(now, e)] := by
    have hrun := ingestTrace_expected notifier L (hourStartOf now) [(now, e)]
      (by intro q hq; rw [List.mem_singleton] at hq; subst hq; rfl)
      (by intro q hq; rw [List.mem_singleton] at hq; subst hq; exact hc)
      (by intro q hq; rw [List.mem_singleton] at hq; subst hq; rw [hk]; rfl)
      (by simp)
    rw [ingestTrace_singleton] at hrun
    exact hrun
  have hmem : ((expectedMonitor notifier L (hourStartOf now) [(now, e)]).apiRequests.any
      fun r => r.requestId == k) = true := by
    simp [expectedMonitor, rowOf, hk]
  have hM : ingestTrace notifier L (List.replicate (m + 1) (now, e)) MonitorState.empty =
      expectedMonitor notifier L (hourStartOf now) [(now, e)] := by
    rw [List.replicate_succ]
    show ingestTrace notifier L (List.replicate m (now, e))
      (processWebhookData notifier L now MonitorState.empty e).2 = _
    rw [hE]
    exact ingestTrace_replicate_dup notifier L now e k hk m _ hmem
  have hT1 : (webhookHandler tn T now TrackerState.empty e).2 =
      (checkAndSendAlert tn T
        ⟨[⟨e.requestId, now, hourBucketOf now, e.cost, e.model.getD "unknown", e.userId,
            e.totalTokens.getD 0⟩],
          [⟨hourBucketOf now, e.cost, false⟩], []⟩
        (hourBucketOf now) e.cost).2 := by
    simp only [webhookHandler, logSpending_from_empty now e k hk]
  have hT := trackerTrace_replicate_inv tn T now e k hk m
    (webhookHandler tn T now TrackerState.empty e).2
    (by rw [hT1, checkAndSendAlert_spendingLog])
    (by rw [hT1]; exact checkAndSendAlert_alerts_shape tn T _ _ _ _ _ _ rfl)
  have hTrun : trackerTrace tn T (List.replicate (m + 1) (now, e)) TrackerState.empty =
      trackerTrace tn T (List.replicate m (now, e))
        (webhookHandler tn T now TrackerState.empty e).2 := by
    rw [List.replicate_succ]
    rfl
  refine ⟨?_, ?_, ?_, ?_⟩
  · rw [hM]
    simp [expectedMonitor, rowOf, hk]
  · rw [hM]
    simp [expectedMonitor]
  · rw [hTrun, hT.1, hk]
  · rw [hTrun]
    obtain ⟨b, hb⟩ := hT.2
    rw [hb]
    rfl

/-- Witness for C1: three submissions of the same event with key `"a"` and
cost 5 yield one monitor ledger row, a monitor hour aggregate of (5, 1),
one tracker ledger row, and a tracker hourly total of 5. -/
theorem idempotent_submission_single_row_single_total_witness :
    (ingestTrace (fun _ => (true, true)) 10
        (List.replicate 3 (0, ⟨some "a", 5, none, none, none⟩))
        MonitorState.empty).apiRequests = [⟨"a", 0, 5, none, none, none⟩] ∧
    (ingestTrace (fun _ => (true, true)) 10
        (List.replicate 3 (0, ⟨some "a", 5, none, none, none⟩))
        MonitorState.empty).hourlySpending = [⟨hourStartOf 0, 5, 1⟩] ∧
    (trackerTrace (fun _ _ => false) 10
        (List.replicate 3 (0, ⟨some "a", 5, none, none, none⟩))
        TrackerState.empty).spendingLog = [⟨some "a", 0, hourBucketOf 0, 5, "unknown", none, 0⟩] ∧
    ((trackerTrace (fun _ _ => false) 10
        (List.replicate 3 (0, ⟨some "a", 5, none, none, none⟩))
        TrackerState.empty).hourlyAlerts.map fun r => (r.hourBucket, r.totalCost)) =
      [(hourBucketOf 0, 5)] :=
  idempotent_submission_single_row_single_total (fun _ => (true, true)) (fun _ _ => false)
    10 10 0 ⟨some "a", 5, none, none, none⟩ "a" 3 rfl (by norm_num) (by norm_num)

/-! C3 -/

/-- C3 counterexample: the claim says uniqueness of alert records is enforced
by the claim-insert itself being unique.  It is not: `record_alert_sent` is
a plain `INSERT` into a table with no uniqueness constraint on
`(hour_start, alert_type)`, so invoking it twice for the same key yields
two stored records with identical `(hour_start, alert_type)`. -/
theorem alert_insert_not_unique_counterexample :
    (recordAlertSent (recordAlertSent MonitorState.empty 0 hourlyLimitAlertType 12 2)
        0 hourlyLimitAlertType 12 2).alertsSent =
      [⟨0, hourlyLimitAlertType, 12, 2⟩, ⟨0, hourlyLimitAlertType, 12, 2⟩] := rfl

/-- C3 amended: across every sequence of sequentially executed ingest
operations starting from an empty database, at most one alert record per
`(hour_start, alert_type)` pair exists in the alert store — but this
uniqueness is enforced by the `was_alert_sent` check-then-insert pre-check
in `handle_limit_exceeded`, not by the insert itself being unique (the
`alerts_sent` schema has no uniqueness constraint, see the counterexample),
and hence holds only for serialized executions. -/
theorem alert_records_pairwise_distinct_sequential (notifier : AlertPayload → Bool × Bool)
    (hourlyLimit : ℚ) (trace : List (Nat × Event)) :
    AlertsDedup (ingestTrace notifier hourlyLimit trace MonitorState.empty) :=
  ingestTrace_dedup notifier hourlyLimit trace MonitorState.empty List.Pairwise.nil

theorem wasAlertSent_congr (s s2 : MonitorState) (h : Nat) (ty : String)
    (he : s2.alertsSent = s.alertsSent) : wasAlertSent s2 h ty = wasAlertSent s h ty := by
  unfold wasAlertSent
  rw [he]

theorem processWebhookData_eq_dupBranch (notifier : AlertPayload → Bool × Bool)
    (hourlyLimit : ℚ) (now : Nat) (s : MonitorState) (w : Event)
    (hc : ¬w.cost ≤ 0) (hins : (addRequest s w now).1 = false) :
    processWebhookData notifier hourlyLimit now s w = (true, (addRequest s w now).2) := by
  simp only [processWebhookData]
  rw [if_neg hc, if_neg (by rw [hins]; exact Bool.false_ne_true)]

theorem processWebhookData_eq_noAlert (notifier : AlertPayload → Bool × Bool)
    (hourlyLimit : ℚ) (now : Nat) (s : MonitorState) (w : Event)
    (hc : ¬w.cost ≤ 0) (hins : (addRequest s w now).1 = true)
    (hle : ¬(updateHourlyAggregate (addRequest s w now).2 (hourStartOf now)).1 > hourlyLimit) :
    processWebhookData notifier hourlyLimit now s w =
      (true, (updateHourlyAggregate (addRequest s w now).2 (hourStartOf now)).2) := by
  simp only [processWebhookData]
  rw [if_neg hc, if_pos hins, if_neg hle]

theorem processWebhookData_eq_alert (notifier : AlertPayload → Bool × Bool)
    (hourlyLimit : ℚ) (now : Nat) (s : MonitorState) (w : Event)
    (hc : ¬w.cost ≤ 0) (hins : (addRequest s w now).1 = true)
    (hgt : (updateHourlyAggregate (addRequest s w now).2 (hourStartOf now)).1 > hourlyLimit) :
    processWebhookData notifier hourlyLimit now s w =
      (true, handleLimitExceeded notifier hourlyLimit
        (updateHourlyAggregate (addRequest s w now).2 (hourStartOf now)).2
        (hourStartOf now)
        (updateHourlyAggregate (addRequest s w now).2 (hourStartOf now)).1) := by
  simp only [processWebhookData]
  rw [if_neg hc, if_pos hins, if_pos hgt]

theorem handleLimitExceeded_wasAlertSent_after (notifier : AlertPayload → Bool × Bool)
    (hourlyLimit : ℚ) (s : MonitorState) (h : Nat) (t : ℚ) :
    wasAlertSent (handleLimitExceeded notifier hourlyLimit s h t) h hourlyLimitAlertType = true := by
  by_cases hsent : wasAlertSent s h hourlyLimitAlertType = true
  · rw [handleLimitExceeded_alertsSent_of_sent _ _ _ _ _ hsent]
    exact hsent
  · rw [Bool.not_eq_true] at hsent
    rw [handleLimitExceeded_of_not_sent _ _ _ _ _ hsent]
    simp [wasAlertSent]

theorem runSequentialClaims_of_sent (notifier : AlertPayload → Bool × Bool)
    (hourlyLimit : ℚ) (h : Nat) (t : ℚ) :
    ∀ (n : Nat) (s : MonitorState), wasAlertSent s h hourlyLimitAlertType = true →
      runSequentialClaims notifier hourlyLimit h t n s = s
  | 0, _, _ => rfl
  | n + 1, s, hsent => by
    rw [runSequentialClaims, handleLimitExceeded_alertsSent_of_sent _ _ _ _ _ hsent]
    exact runSequentialClaims_of_sent notifier hourlyLimit h t n s hsent

/-! C9 -/

/-- C9 counterexample: the claim says that among concurrent callers of the
alert claim exactly one receives `Claimed`.  But the code's claim is a
`was_alert_sent` pre-check followed by a plain insert: under the
interleaving A-check, B-check, A-insert, B-insert both callers observe no
prior alert, both dispatch, and two alert records for the same
`(hour_start, alert_type)` are stored. -/
theorem concurrent_claim_both_claimed_counterexample :
    ((runSchedule (fun _ => (true, true)) 10 0 12 [true, false, true, false]
        MonitorState.empty ClaimCaller.start ClaimCaller.start).1.dispatched.length = 2) ∧
    ((runSchedule (fun _ => (true, true)) 10 0 12 [true, false, true, false]
        MonitorState.empty ClaimCaller.start ClaimCaller.start).1.alertsSent.map
          (fun r => (r.hourStart, r.alertType))) =
      [(0, hourlyLimitAlertType), (0, hourlyLimitAlertType)] := by
  constructor <;> rfl

/-- C9 amended: the alert claim of `handle_limit_exceeded` is a
check-then-insert without any uniqueness constraint, so the exactly-one
guarantee holds only for serialized executions: when `n ≥ 1` callers run
`handle_limit_exceeded` to completion one after the other, exactly one of
them dispatches the alert and exactly one alert record is stored, all
later callers observing `was_alert_sent` and skipping.  Concurrent
interleavings can instead produce two `Claimed` callers and two records
(see the counterexample). -/
theorem serialized_claims_exactly_one (notifier : AlertPayload → Bool × Bool)
    (hourlyLimit : ℚ) (h : Nat) (t : ℚ) (n : Nat) (hn : 0 < n) :
    (runSequentialClaims notifier hourlyLimit h t n MonitorState.empty).dispatched.length = 1 ∧
    (runSequentialClaims notifier hourlyLimit h t n MonitorState.empty).alertsSent.length = 1 := by
  obtain ⟨m, rfl⟩ : ∃ m, n = m + 1 := ⟨n - 1, (Nat.succ_pred_eq_of_pos hn).symm⟩
  have h0 : wasAlertSent MonitorState.empty h hourlyLimitAlertType = false := rfl
  rw [runSequentialClaims,
    runSequentialClaims_of_sent notifier hourlyLimit h t m _
      (handleLimitExceeded_wasAlertSent_after notifier hourlyLimit MonitorState.empty h t),
    handleLimitExceeded_of_not_sent _ _ _ _ _ h0]
  exact ⟨rfl, rfl⟩

/-- Witness for the amended C9: three serialized callers dispatch exactly one
alert and store exactly one record. -/
theorem serialized_claims_exactly_one_witness :
    (runSequentialClaims (fun _ => (true, true)) 10 0 12 3 MonitorState.empty).dispatched.length = 1 ∧
    (runSequentialClaims (fun _ => (true, true)) 10 0 12 3 MonitorState.empty).alertsSent.length = 1 :=
  serialized_claims_exactly_one (fun _ => (true, true)) 10 0 12 3 (by decide)

/-! C4 -/

/-- C4 counterexample: the claim says that once the alert for an hour has been
claimed, a notifier failure never leads to a re-dispatch by later ingests
in the same hour.  In the cited `main.py` path, `check_and_send_alert`
marks `alert_sent = TRUE` only when `send_alert` reports success, so with a
failing notifier the next ingest in the same hour dispatches the alert
again: two events (cost 12 then cost 1, both in hour bucket 0) under an
always-failing notifier produce two dispatches. -/
theorem tracker_redispatch_after_notifier_failure_counterexample :
    (trackerTrace (fun _ _ => false) 10
        [(0, ⟨some "a", 12, none, none, none⟩), (5, ⟨some "b", 1, none, none, none⟩)]
        TrackerState.empty).dispatched.length = 2 ∧
    ((trackerTrace (fun _ _ => false) 10
        [(0, ⟨some "a", 12, none, none, none⟩), (5, ⟨some "b", 1, none, none, none⟩)]
        TrackerState.empty).dispatched.map (fun d => d.1)) = [0, 0] := by
  norm_num [trackerTrace, webhookHandler, logSpending, checkAndSendAlert,
    hourBucketOf, TrackerState.empty, List.filter, List.foldl, bne, beq_iff_eq]

/-- C4 amended, for the `SpendingMonitor` path (which the `main.py` path
contradicts, see the counterexample): processing always reports success;
the resulting observable state — ledger, aggregate, alert records,
dispatched payloads — is identical for any two notifier outcome functions,
so a notifier failure neither rolls back the alert record nor fails the
ingest; whenever a dispatch happened during processing, the durable alert
record for the hour exists afterwards; and once the alert record for the
current hour exists, processing never dispatches again. -/
theorem alert_claim_durable_under_notifier_failure (nf nf2 : AlertPayload → Bool × Bool)
    (hourlyLimit : ℚ) (now : Nat) (s : MonitorState) (w : Event) :
    (processWebhookData nf hourlyLimit now s w).1 = true ∧
    (processWebhookData nf hourlyLimit now s w).2.obs =
      (processWebhookData nf2 hourlyLimit now s w).2.obs ∧
    ((processWebhookData nf hourlyLimit now s w).2.dispatched ≠ s.dispatched →
      wasAlertSent (processWebhookData nf hourlyLimit now s w).2
        (hourStartOf now) hourlyLimitAlertType = true) ∧
    (wasAlertSent s (hourStartOf now) hourlyLimitAlertType = true →
      (processWebhookData nf hourlyLimit now s w).2.dispatched = s.dispatched) := by
  have haddDis : (addRequest s w now).2.dispatched = s.dispatched := addRequest_dispatched s w now
  have hupdDis :
      (updateHourlyAggregate (addRequest s w now).2 (hourStartOf now)).2.dispatched =
        s.dispatched := by
    rw [updateHourlyAggregate_dispatched, haddDis]
  have hsentKeep :
      wasAlertSent (updateHourlyAggregate (addRequest s w now).2 (hourStartOf now)).2
          (hourStartOf now) hourlyLimitAlertType =
        wasAlertSent s (hourStartOf now) hourlyLimitAlertType := by
    apply wasAlertSent_congr
    rw [updateHourlyAggregate_alertsSent, addRequest_alertsSent]
  by_cases hc : w.cost ≤ 0
  · rw [processWebhookData_cost_nonpos nf hourlyLimit now s w hc,
      processWebhookData_cost_nonpos nf2 hourlyLimit now s w hc]
    exact ⟨rfl, rfl, fun hne => absurd rfl hne, fun _ => rfl⟩
  · by_cases hins : (addRequest s w now).1 = true
    · by_cases hgt :
        (updateHourlyAggregate (addRequest s w now).2 (hourStartOf now)).1 > hourlyLimit
      · rw [processWebhookData_eq_alert nf hourlyLimit now s w hc hins hgt,
          processWebhookData_eq_alert nf2 hourlyLimit now s w hc hins hgt]
        refine ⟨rfl, ?_, ?_, ?_⟩
        · by_cases hsent :
            wasAlertSent (updateHourlyAggregate (addRequest s w now).2 (hourStartOf now)).2
              (hourStartOf now) hourlyLimitAlertType = true
          · rw [handleLimitExceeded_alertsSent_of_sent _ _ _ _ _ hsent,
              handleLimitExceeded_alertsSent_of_sent _ _ _ _ _ hsent]

          · rw [Bool.not_eq_true] at hsent
            rw [handleLimitExceeded_of_not_sent _ _ _ _ _ hsent,
              handleLimitExceeded_of_not_sent _ _ _ _ _ hsent]
            simp [MonitorState.obs]
        · intro _
          exact handleLimitExceeded_wasAlertSent_after nf hourlyLimit _ _ _
        · intro hsent
          rw [handleLimitExceeded_alertsSent_of_sent _ _ _ _ _ (by rw [hsentKeep]; exact hsent)]
          exact hupdDis
      · rw [processWebhookData_eq_noAlert nf hourlyLimit now s w hc hins hgt,
          processWebhookData_eq_noAlert nf2 hourlyLimit now s w hc hins hgt]
        exact ⟨rfl, rfl, fun hne => absurd hupdDis hne, fun _ => hupdDis⟩
    · rw [Bool.not_eq_true] at hins
      rw [processWebhookData_eq_dupBranch nf hourlyLimit now s w hc hins,
        processWebhookData_eq_dupBranch nf2 hourlyLimit now s w hc hins]
      exact ⟨rfl, rfl, fun hne => absurd haddDis hne, fun _ => haddDis⟩

/-- Witness for the amended C4: with an always-failing notifier, a cost-12
event under limit 10 dispatches an alert, the durable alert record exists
afterwards, and a second event later in the same hour causes no further
dispatch. -/
theorem alert_claim_durable_under_notifier_failure_witness :
    ((processWebhookData (fun _ => (false, false)) 10 0 MonitorState.empty
        ⟨some "a", 12, none, none, none⟩).2.dispatched ≠ MonitorState.empty.dispatched) ∧
    wasAlertSent (processWebhookData (fun _ => (false, false)) 10 0 MonitorState.empty
        ⟨some "a", 12, none, none, none⟩).2 (hourStartOf 0) hourlyLimitAlertType = true ∧
    (processWebhookData (fun _ => (false, false)) 10 30
        (processWebhookData (fun _ => (false, false)) 10 0 MonitorState.empty
          ⟨some "a", 12, none, none, none⟩).2
        ⟨some "b", 1, none, none, none⟩).2.dispatched =
      (processWebhookData (fun _ => (false, false)) 10 0 MonitorState.empty
        ⟨some "a", 12, none, none, none⟩).2.dispatched := by
  have hA : (processWebhookData (fun _ => (false, false)) 10 0 MonitorState.empty
      ⟨some "a", 12, none, none, none⟩).2 =
      ⟨[⟨"a", 0, 12, none, none, none⟩], [⟨0, 12, 1⟩],
        [⟨0, hourlyLimitAlertType, 12, 2⟩], [(⟨0, 12, 10, 2, 1⟩, (false, false))]⟩ := by
    norm_num [processWebhookData, addRequest, updateHourlyAggregate, rowsInHour,
      wasAlertSent, recordAlertSent, handleLimitExceeded, getRequestCountForHour,
      hourStartOf, MonitorState.empty, List.filter, bne, beq_iff_eq]
  have h1 : (processWebhookData (fun _ => (false, false)) 10 0 MonitorState.empty
      ⟨some "a", 12, none, none, none⟩).2.dispatched ≠ MonitorState.empty.dispatched := by
    rw [hA]
    simp [MonitorState.empty]
  have h2 := (alert_claim_durable_under_notifier_failure (fun _ => (false, false))
    (fun _ => (false, false)) 10 0 MonitorState.empty
    ⟨some "a", 12, none, none, none⟩).2.2.1 h1
  refine ⟨h1, h2, ?_⟩
  exact (alert_claim_durable_under_notifier_failure (fun _ => (false, false))
    (fun _ => (false, false)) 10 30 _ ⟨some "b", 1, none, none, none⟩).2.2.2 h2

/-! C10 -/

/-- C10: for every inbound event whose `request_id` field is absent,
processing reports success to the caller, yet no ledger row is stored and
no aggregate is updated — the `INSERT OR IGNORE` silently skips the
`NOT NULL` violation, `add_request` reports the row as not inserted, and
`process_webhook_data` treats the event as an already-processed duplicate:
the state is entirely unchanged and the result is `True`. -/
theorem requestId_absent_dropped_silently (notifier : AlertPayload → Bool × Bool)
    (hourlyLimit : ℚ) (now : Nat) (s : MonitorState) (w : Event)
    (h : w.requestId = none) :
    processWebhookData notifier hourlyLimit now s w = (true, s) :=
  processWebhookData_requestId_none notifier hourlyLimit now s w h

/-- Witness for C10: a concrete keyless event with positive cost is accepted
with success and leaves the empty database empty. -/
theorem requestId_absent_dropped_silently_witness :
    processWebhookData (fun _ => (true, true)) 10 0 MonitorState.empty
      ⟨none, 7, none, none, none⟩ = (true, MonitorState.empty) :=
  requestId_absent_dropped_silently (fun _ => (true, true)) 10 0 MonitorState.empty
    ⟨none, 7, none, none, none⟩ rfl

/-! C5 -/

/-- C5 counterexample: the claim says a retried delivery (idempotency key
already in the ledger) still refreshes the hour aggregate.  Concretely:
event `"a"` (cost 5) is ingested at time 0 (hour bucket 0); the same event
is redelivered at time 60 (hour bucket 60).  The second call returns
success with the state completely unchanged — no `hourly_spending` row for
hour 60 exists — whereas actually running `update_hourly_aggregate` for
hour 60 would have upserted one. -/
theorem retried_delivery_skips_refresh_counterexample :
    (processWebhookData (fun _ => (true, true)) 10 60
        ⟨[⟨"a", 0, 5, none, none, none⟩], [⟨0, 5, 1⟩], [], []⟩
        ⟨some "a", 5, none, none, none⟩).1 = true ∧
    (processWebhookData (fun _ => (true, true)) 10 0 MonitorState.empty
        ⟨some "a", 5, none, none, none⟩).2 =
      ⟨[⟨"a", 0, 5, none, none, none⟩], [⟨0, 5, 1⟩], [], []⟩ ∧
    (processWebhookData (fun _ => (true, true)) 10 60
        ⟨[⟨"a", 0, 5, none, none, none⟩], [⟨0, 5, 1⟩], [], []⟩
        ⟨some "a", 5, none, none, none⟩).2 =
      ⟨[⟨"a", 0, 5, none, none, none⟩], [⟨0, 5, 1⟩], [], []⟩ ∧
    ((updateHourlyAggregate ⟨[⟨"a", 0, 5, none, none, none⟩], [⟨0, 5, 1⟩], [], []⟩
        (hourStartOf 60)).2.hourlySpending.any fun x => x.hourStart == 60) = true ∧
    ((processWebhookData (fun _ => (true, true)) 10 60
        ⟨[⟨"a", 0, 5, none, none, none⟩], [⟨0, 5, 1⟩], [], []⟩
        ⟨some "a", 5, none, none, none⟩).2.hourlySpending.any
          fun x => x.hourStart == 60) = false := by
  norm_num [processWebhookData, addRequest, updateHourlyAggregate, rowsInHour,
    wasAlertSent, recordAlertSent, handleLimitExceeded, getRequestCountForHour,
    hourStartOf, hourlyLimitAlertType, MonitorState.empty]

/-- C5 amended: a retried delivery whose idempotency key is already present in
the ledger is treated as an already-processed duplicate: the engine reports
success and returns immediately without refreshing the hour aggregate (and
without returning any total); the state is unchanged, so in particular the
total is not double-counted. -/
theorem retried_delivery_success_without_refresh (notifier : AlertPayload → Bool × Bool)
    (hourlyLimit : ℚ) (now : Nat) (s : MonitorState) (w : Event) (k : String)
    (hk : w.requestId = some k)
    (hmem : (s.apiRequests.any fun r => r.requestId == k) = true) :
    processWebhookData notifier hourlyLimit now s w = (true, s) :=
  processWebhookData_dup notifier hourlyLimit now s w k hk hmem

/-- Witness for the amended C5: the concrete retried delivery of event `"a"`
against a ledger already containing it. -/
theorem retried_delivery_success_without_refresh_witness :
    processWebhookData (fun _ => (true, true)) 10 60
      ⟨[⟨"a", 0, 5, none, none, none⟩], [⟨0, 5, 1⟩], [], []⟩
      ⟨some "a", 5, none, none, none⟩ =
    (true, ⟨[⟨"a", 0, 5, none, none, none⟩], [⟨0, 5, 1⟩], [], []⟩) :=
  retried_delivery_success_without_refresh (fun _ => (true, true)) 10 60
    ⟨[⟨"a", 0, 5, none, none, none⟩], [⟨0, 5, 1⟩], [], []⟩
    ⟨some "a", 5, none, none, none⟩ "a" rfl (by decide)

/-! C6 -/

/-- C6 counterexample: the claim says an event with `cost = -0.01` is rejected
as a failure result.  Concretely, `process_webhook_data` returns `True`
(success) for it, and `main.py`'s `log_spending` even stores the
negative-cost row in its ledger. -/
theorem negative_cost_not_rejected_counterexample :
    (processWebhookData (fun _ => (true, true)) 10 0 MonitorState.empty
      ⟨some "a", -(1/100), none, none, none⟩).1 = true ∧
    (webhookHandler (fun _ _ => false) 10 0 TrackerState.empty
      ⟨some "a", -(1/100), none, none, none⟩).2.spendingLog =
      [⟨some "a", 0, 0, -(1/100), "unknown", none, 0⟩] := by
  norm_num [processWebhookData, addRequest, webhookHandler, logSpending,
    checkAndSendAlert, hourBucketOf, MonitorState.empty, TrackerState.empty]

/-- C6 amended: in the `SpendingMonitor` path an event with `cost < 0` is not
rejected as a failure: it is accepted with a success result and skipped —
no ledger row is produced and the hour aggregate is left unchanged (the
state is returned untouched).  The `main.py` tracker path does not validate
cost at all and stores the negative-cost row. -/
theorem negative_cost_skipped_with_success (notifier : AlertPayload → Bool × Bool)
    (hourlyLimit : ℚ) (now : Nat) (s : MonitorState) (w : Event) (h : w.cost < 0) :
    processWebhookData notifier hourlyLimit now s w = (true, s) :=
  processWebhookData_cost_nonpos notifier hourlyLimit now s w (le_of_lt h)

/-- Witness for the amended C6: the concrete `cost = -0.01` event. -/
theorem negative_cost_skipped_with_success_witness :
    processWebhookData (fun _ => (true, true)) 10 0 MonitorState.empty
      ⟨some "a", -(1/100), none, none, none⟩ = (true, MonitorState.empty) :=
  negative_cost_skipped_with_success (fun _ => (true, true)) 10 0 MonitorState.empty
    ⟨some "a", -(1/100), none, none, none⟩ (by norm_num)

/-! C7 -/

/-- C7 counterexample: the claim says a `cost = 0` event writes no ledger row
and leaves the aggregates unchanged; but `main.py`'s ingestion (cited as a
source of the claim) stores the zero-cost row in `spending_log` and upserts
the `hourly_alerts` summary. -/
theorem zero_cost_stored_by_tracker_counterexample :
    (webhookHandler (fun _ _ => false) 10 0 TrackerState.empty
      ⟨some "a", 0, none, none, none⟩).2.spendingLog =
      [⟨some "a", 0, 0, 0, "unknown", none, 0⟩] ∧
    (webhookHandler (fun _ _ => false) 10 0 TrackerState.empty
      ⟨some "a", 0, none, none, none⟩).2.hourlyAlerts = [⟨0, 0, false⟩] := by
  norm_num [processWebhookData, addRequest, webhookHandler, logSpending,
    checkAndSendAlert, hourBucketOf, MonitorState.empty, TrackerState.empty]

/-- C7 amended: in the `SpendingMonitor` path an event with `metadata.cost ≤ 0`
(in particular `cost = 0`) is accepted at the ingress boundary with a
success result but skipped: no ledger row is written and no aggregation is
performed — the state is returned unchanged.  The `main.py` tracker path
instead stores the zero-cost row and refreshes its hourly summary. -/
theorem zero_cost_skipped_by_monitor (notifier : AlertPayload → Bool × Bool)
    (hourlyLimit : ℚ) (now : Nat) (s : MonitorState) (w : Event) (h : w.cost ≤ 0) :
    processWebhookData notifier hourlyLimit now s w = (true, s) :=
  processWebhookData_cost_nonpos notifier hourlyLimit now s w h

/-- Witness for the amended C7: the concrete `cost = 0` event. -/
theorem zero_cost_skipped_by_monitor_witness :
    processWebhookData (fun _ => (true, true)) 10 0 MonitorState.empty
      ⟨some "a", 0, none, none, none⟩ = (true, MonitorState.empty) :=
  zero_cost_skipped_by_monitor (fun _ => (true, true)) 10 0 MonitorState.empty
    ⟨some "a", 0, none, none, none⟩ le_rfl

/-! C8 -/

/-- C8 counterexample: the claim says that with no shared secret configured,
signature verification returns true for every payload and signature; but
`webhook_server.py`'s verifier (cited as a source of the claim) returns
false when the secret is missing, rejecting the request. -/
theorem no_secret_rejected_by_server_counterexample :
    verifyWebhookSignatureServer (fun _ _ => "") "x" (some "y") none = false := rfl

/-- C8 amended: the two verifiers disagree about the open-vs-closed policy
when no shared secret is configured: `main.py`'s verifier returns true for
every payload and provided signature (all requests allowed through
unauthenticated), while `webhook_server.py`'s verifier returns false for
every payload and signature (all requests rejected). -/
theorem no_secret_open_in_main_closed_in_server (hmacHex : String → String → String)
    (payload signature : String) (sigOpt : Option String) :
    verifyWebhookSignatureMain hmacHex none payload signature = true ∧
    verifyWebhookSignatureServer hmacHex payload sigOpt none = false := by
  refine ⟨rfl, ?_⟩
  simp [verifyWebhookSignatureServer, strFalsy]

end LLMTracking
